import Mathlib

/-!
Shallow embedding of `src/june/models/llm.py`.

The repository's core is the `LLM` class: a per-conversation context store
(`self.contexts`), a retrying call into the generation backend, and a
streaming filter (`TokenStreamer.on_finalized_text`) over the backend's
finalized-text chunks.  Pure data is modelled directly; the stateful
`generate` method is modelled as a function from the pre-call state (plus
the behaviour of the external backend for the at-most-two pipeline
invocations of one call) to the post-call state together with the returned
value and the observable effect counters (pipeline invocations, kernel
disable toggles).
-/

/-- The `role` field of a chat message dictionary. -/
inductive Role
  | system
  | user
  | assistant
  deriving DecidableEq, Repr

/-- A message record as stored in a context history: `{"role": r, "content": c}`. -/
structure Message where
  role : Role
  content : String
  deriving DecidableEq, Repr

/-- The backend's raw result, `pipeline(...)[0]["generated_text"]`: either a bare
completion string or a full conversation (list of messages). -/
inductive RawResult
  | bare (s : String)
  | conv (msgs : List Message)
  deriving DecidableEq, Repr

/-- A fault raised by the backend call: its Python exception class membership
(`RuntimeError` or not, which decides whether `except RuntimeError` catches it)
and its text `str(e)`. -/
structure Fault where
  isRuntimeError : Bool
  text : String
  deriving DecidableEq, Repr

/-- An error propagating out of `generate`. -/
inductive GenError
  | unknownContext
  | indexError
  | backend (f : Fault)
  deriving DecidableEq, Repr

/-- The message value returned to the caller: role, content, and the optional
`context_id` key added by `completion.update({"context_id": context_id})`. -/
structure AssistantMessage where
  role : Role
  content : String
  context_id : Option String
  deriving DecidableEq, Repr

/-- Python `text.startswith(p)`, character-wise. -/
def pyStartswith (s p : String) : Bool :=
  p.toList.isPrefixOf s.toList

/-- Substring occurrence test on character lists: does `needle` occur
contiguously in the haystack? -/
def subMatch (needle : List Char) : List Char → Bool
  | [] => needle.isPrefixOf []
  | c :: rest => needle.isPrefixOf (c :: rest) || subMatch needle rest

/-- Python `needle in hay` on strings. -/
def strContains (hay needle : String) : Bool :=
  subMatch needle.toList hay.toList

/-- Python `s.removesuffix(suff)`: drop one trailing occurrence of `suff` when
`suff` is a suffix of `s`, otherwise return `s` unchanged. -/
def removesuffix (s suff : String) : String :=
  if suff.toList.isSuffixOf s.toList then
    String.mk (s.toList.take (s.toList.length - suff.toList.length))
  else s

/-- `TokenStreamer.on_finalized_text`, as the per-chunk transform it applies
before handing the chunk to `TextStreamer.on_finalized_text` (the downstream
sink).  `none` means the chunk is suppressed (the early `return`); `some t`
means `t` is forwarded. -/
def on_finalized_text (bos eos text : String) : Option String :=
  if pyStartswith text bos then
    none
  else
    some (if strContains text eos then removesuffix text eos else text)

/-- The per-chunk transform as the specification describes it: a chunk whose
text begins with the BOS marker is suppressed entirely; otherwise, when the EOS
marker occurs as a suffix, exactly that one trailing occurrence is stripped;
a chunk with neither marker passes through unchanged. -/
def streamFilterSpec (bos eos text : String) : Option String :=
  if bos.toList.isPrefixOf text.toList then
    none
  else if eos.toList.isSuffixOf text.toList then
    some (String.mk (text.toList.take (text.toList.length - eos.toList.length)))
  else
    some text

/-- The context store `self.contexts`: a string-keyed mapping (Python `dict`)
from context id to message history, in insertion order. -/
abbrev Ctxs := List (String × List Message)

/-- Python `m[k]` read access (`None` models a `KeyError`). -/
def ctxLookup (m : Ctxs) (k : String) : Option (List Message) :=
  match m with
  | [] => none
  | p :: rest => if p.1 == k then some p.2 else ctxLookup rest k

/-- Python `m[k] = v`: replace the binding in place if the key is present,
otherwise append a new binding. -/
def ctxSet (m : Ctxs) (k : String) (v : List Message) : Ctxs :=
  match m with
  | [] => [(k, v)]
  | p :: rest => if p.1 == k then (k, v) :: rest else p :: ctxSet rest k v

/-- Python `m[k].append(msg)`: fails (models `KeyError` / `UnknownContext`)
when the key is absent. -/
def appendMsg (m : Ctxs) (k : String) (msg : Message) : Option Ctxs :=
  match ctxLookup m k with
  | some h => some (ctxSet m k (h ++ [msg]))
  | none => none

/-- The persistent state of an `LLM` instance that `generate` touches. -/
structure LLMState where
  contexts : Ctxs
  system_prompt : Option String
  deriving Repr

/-- Python truthiness of `kwargs.get("context_id")`: `not context_id` is true
both when the key is absent (`None`) and when it is the empty string. -/
def pyTruthyNone (ctxArg : Option String) : Bool :=
  match ctxArg with
  | none => true
  | some s => s.isEmpty

/-- The context id actually used by the call: the caller's id when it is a
nonempty string, otherwise the freshly generated `str(uuid.uuid4())`. -/
def resolvedCid (freshId : String) (ctxArg : Option String) : String :=
  match ctxArg with
  | none => freshId
  | some s => if s.isEmpty then freshId else s

/-- The history created by the initialization branch: empty, or the configured
system prompt as the sole message. -/
def sysInit (sp : Option String) : List Message :=
  match sp with
  | some s => [⟨Role.system, s⟩]
  | none => []

/-- Normalization of the backend's raw result (`isinstance(completion, str)`
branch): a bare string becomes an assistant record, a conversation yields its
last message (`completion[-1]`; `none` models the `IndexError` on an empty
list). -/
def normalizeCompletion : RawResult → Option Message
  | RawResult.bare s => some ⟨Role.assistant, s⟩
  | RawResult.conv msgs => msgs.getLast?

/-- The outcome of one `generate` call: the returned value or the propagated
error, the post-call context store, the number of invocations of
`enable_mem_efficient_sdp(False)` and `enable_flash_sdp(False)`, the number of
pipeline invocations, and the context id under which the turn was stored. -/
structure GenResult where
  result : Except GenError AssistantMessage
  contexts : Ctxs
  memEffDisables : Nat
  flashDisables : Nat
  backendCalls : Nat
  usedContextId : String
  deriving Repr

/-- The tail of `generate` after a successful backend call: normalize the
completion, append a copy (`{**completion}`) to the history, and return the
completion with the `context_id` key attached when the id was freshly
generated. -/
def finishTurn (ctxs2 : Ctxs) (cid : String) (attach : Bool)
    (memd flashd calls : Nat) (r : RawResult) : GenResult :=
  match normalizeCompletion r with
  | none => ⟨Except.error GenError.indexError, ctxs2, memd, flashd, calls, cid⟩
  | some comp =>
    match appendMsg ctxs2 cid ⟨comp.role, comp.content⟩ with
    | none => ⟨Except.error GenError.unknownContext, ctxs2, memd, flashd, calls, cid⟩
    | some ctxs3 =>
      ⟨Except.ok ⟨comp.role, comp.content, if attach then some cid else none⟩,
        ctxs3, memd, flashd, calls, cid⟩

/-- The `try`/`except RuntimeError` block of `generate`: the first pipeline
invocation, the conditional kernel-disable toggles, and the unconditional
second invocation inside the handler.  `a1` and `a2` give the backend's
behaviour on the first and second invocation as a function of the history it
is invoked on. -/
def backendPhase (ctxs2 : Ctxs) (cid : String) (attach : Bool) (device : String)
    (a1 a2 : List Message → Except Fault RawResult) (hist : List Message) : GenResult :=
  match a1 hist with
  | Except.ok r => finishTurn ctxs2 cid attach 0 0 1 r
  | Except.error e =>
    if e.isRuntimeError then
      let d : Nat := if strContains e.text "cutlassF" && (device == "cuda") then 1 else 0
      match a2 hist with
      | Except.ok r => finishTurn ctxs2 cid attach d d 2 r
      | Except.error e2 =>
        ⟨Except.error (GenError.backend e2), ctxs2, d, d, 2, cid⟩
    else
      ⟨Except.error (GenError.backend e), ctxs2, 0, 0, 1, cid⟩

/-- `LLM.generate(message, context_id=ctxArg)`.  `device` is
`settings.TORCH_DEVICE`; `freshId` is the value `str(uuid.uuid4())` would
produce for this call; `attempt1`/`attempt2` are the backend's behaviour on
the first and second pipeline invocation. -/
def generate (st : LLMState) (device : String)
    (attempt1 attempt2 : List Message → Except Fault RawResult)
    (freshId message : String) (ctxArg : Option String) : GenResult :=
  let attach := pyTruthyNone ctxArg
  let cid := resolvedCid freshId ctxArg
  let needInit := attach || (ctxLookup st.contexts cid).isNone
  let ctxs1 := if needInit then ctxSet st.contexts cid (sysInit st.system_prompt) else st.contexts
  match appendMsg ctxs1 cid ⟨Role.user, message⟩ with
  | none => ⟨Except.error GenError.unknownContext, ctxs1, 0, 0, 0, cid⟩
  | some ctxs2 =>
    match ctxLookup ctxs2 cid with
    | none => ⟨Except.error GenError.unknownContext, ctxs2, 0, 0, 0, cid⟩
    | some hist => backendPhase ctxs2 cid attach device attempt1 attempt2 hist

/-- The history of a context, as seen through the first branch `initialize`
takes: the freshly initialized history when the init branch runs, the existing
history otherwise. -/
def initialHist (st : LLMState) (cid : String) (attach : Bool) : List Message :=
  if attach || (ctxLookup st.contexts cid).isNone then sysInit st.system_prompt
  else (ctxLookup st.contexts cid).getD []

/-- Drop the `context_id` key from a returned message, keeping role and
content. -/
def eraseCtxField (am : AssistantMessage) : AssistantMessage :=
  ⟨am.role, am.content, none⟩

/-- `generate` on a supplied id `x` behaves like `generate` with no id whose
fresh id happens to be `x`, except that no `context_id` is attached: same
store, same turn key, same effect counters, and the same result up to the
absent `context_id` field. -/
def behavesLikeFreshExceptId (gX gN : GenResult) (x : String) : Prop :=
  gX.contexts = gN.contexts ∧
  gX.usedContextId = x ∧
  gN.usedContextId = x ∧
  gX.memEffDisables = gN.memEffDisables ∧
  gX.flashDisables = gN.flashDisables ∧
  gX.backendCalls = gN.backendCalls ∧
  gX.result = Except.map eraseCtxField gN.result

/-- The invariant claimed of every stored history: at most one message of role
system, and any system message sits at index 0. -/
def sysInv (h : List Message) : Prop :=
  h.countP (fun m => m.role == Role.system) ≤ 1 ∧
  ∀ (i : Nat) (hi : i < h.length), h[i].role = Role.system → i = 0

/-- The backend interface contract for a successful raw result (spec: the
result is either a bare completion string or the updated conversation, whose
last message is the new assistant reply). -/
def rawEndsAssistant : RawResult → Prop
  | RawResult.bare _ => True
  | RawResult.conv msgs => ∀ m, msgs.getLast? = some m → m.role = Role.assistant

/-- Modelled from the spec: `str(uuid.uuid4())` (Python standard library, not
part of this repository) is specified in §4.1 only as generating "a fresh
unique identifier"; it is modelled here as an injective rendering of a
per-process call counter. -/
def freshIdGen (n : Nat) : String :=
  String.mk (List.replicate n 'u')

/-- A process driving repeated `generate` calls: the LLM instance state plus
the fresh-id source's counter. -/
structure ProcState where
  llm : LLMState
  counter : Nat

/-- The per-call environment of one no-context-id `generate` call: the device,
the backend's behaviour for the two possible invocations, and the user
message. -/
structure CallSpec where
  device : String
  a1 : List Message → Except Fault RawResult
  a2 : List Message → Except Fault RawResult
  message : String

/-- One `generate` call with no `context_id` argument, drawing the fresh id
from the process counter. -/
def autoCall (p : ProcState) (c : CallSpec) : ProcState × GenResult :=
  let g := generate p.llm c.device c.a1 c.a2 (freshIdGen p.counter) c.message none
  (⟨⟨g.contexts, p.llm.system_prompt⟩, p.counter + 1⟩, g)

/-- Run a sequence of no-context-id `generate` calls, collecting each call's
outcome. -/
def autoRun (p : ProcState) : List CallSpec → List GenResult
  | [] => []
  | c :: rest => (autoCall p c).2 :: autoRun (autoCall p c).1 rest

theorem ctxLookup_ctxSet_self (m : Ctxs) (k : String) (v : List Message) :
    ctxLookup (ctxSet m k v) k = some v := by
  induction m with
  | nil => simp [ctxSet, ctxLookup]
  | cons p rest ih =>
    by_cases h : p.1 = k
    · simp [ctxSet, ctxLookup, h]
    · simp [ctxSet, ctxLookup, h, ih]

theorem ctxLookup_ctxSet_ne (m : Ctxs) (k k' : String) (v : List Message)
    (h : k' ≠ k) : ctxLookup (ctxSet m k v) k' = ctxLookup m k' := by
  have h' : k ≠ k' := Ne.symm h
  induction m with
  | nil => simp [ctxSet, ctxLookup, h']
  | cons p rest ih =>
    by_cases hp : p.1 = k
    · simp [ctxSet, ctxLookup, hp, h']
    · simp only [ctxSet, beq_iff_eq, hp, if_false]
      by_cases hp' : p.1 = k'
      · simp [ctxLookup, hp']
      · simp [ctxLookup, hp', ih]

theorem ctxSet_ctxSet (m : Ctxs) (k : String) (v w : List Message) :
    ctxSet (ctxSet m k v) k w = ctxSet m k w := by
  induction m with
  | nil => simp [ctxSet]
  | cons p rest ih =>
    by_cases h : p.1 = k
    · simp [ctxSet, h]
    · simp [ctxSet, h, ih]

/-- `generate`'s resolve/initialize/append-user phase always succeeds and
leaves the store holding, under the resolved id, the initialized-or-existing
history with the user message appended; the backend phase then runs on exactly
that history. -/
theorem generate_eq_phase (st : LLMState) (device : String)
    (a1 a2 : List Message → Except Fault RawResult)
    (freshId message : String) (ctxArg : Option String) :
    generate st device a1 a2 freshId message ctxArg =
      backendPhase
        (ctxSet st.contexts (resolvedCid freshId ctxArg)
          (initialHist st (resolvedCid freshId ctxArg) (pyTruthyNone ctxArg) ++
            [⟨Role.user, message⟩]))
        (resolvedCid freshId ctxArg) (pyTruthyNone ctxArg) device a1 a2
        (initialHist st (resolvedCid freshId ctxArg) (pyTruthyNone ctxArg) ++
          [⟨Role.user, message⟩]) := by
  unfold generate initialHist
  cases hN : (pyTruthyNone ctxArg || (ctxLookup st.contexts (resolvedCid freshId ctxArg)).isNone) with
  | true =>
    simp only [hN, if_true]
    simp [appendMsg, ctxLookup_ctxSet_self, ctxSet_ctxSet]
  | false =>
    simp only [hN, if_false]
    cases hL : ctxLookup st.contexts (resolvedCid freshId ctxArg) with
    | none => simp [hL, Option.isNone] at hN
    | some h0 =>
      simp [appendMsg, hL, ctxLookup_ctxSet_self]

theorem finishTurn_usedContextId (ctxs2 : Ctxs) (cid : String) (attach : Bool)
    (memd flashd calls : Nat) (r : RawResult) :
    (finishTurn ctxs2 cid attach memd flashd calls r).usedContextId = cid := by
  cases hN : normalizeCompletion r with
  | none => simp [finishTurn, hN]
  | some comp =>
    cases hA : appendMsg ctxs2 cid ⟨comp.role, comp.content⟩ with
    | none => simp [finishTurn, hN, hA]
    | some ctxs3 => simp [finishTurn, hN, hA]

theorem backendPhase_usedContextId (ctxs2 : Ctxs) (cid : String) (attach : Bool)
    (device : String) (a1 a2 : List Message → Except Fault RawResult)
    (hist : List Message) :
    (backendPhase ctxs2 cid attach device a1 a2 hist).usedContextId = cid := by
  cases h1 : a1 hist with
  | ok r => simp [backendPhase, h1, finishTurn_usedContextId]
  | error e =>
    cases he : e.isRuntimeError with
    | false => simp [backendPhase, h1, he]
    | true =>
      cases h2 : a2 hist with
      | ok r => simp [backendPhase, h1, he, h2, finishTurn_usedContextId]
      | error e2 => simp [backendPhase, h1, he, h2]

theorem generate_usedContextId (st : LLMState) (device : String)
    (a1 a2 : List Message → Except Fault RawResult)
    (freshId message : String) (ctxArg : Option String) :
    (generate st device a1 a2 freshId message ctxArg).usedContextId =
      resolvedCid freshId ctxArg := by
  rw [generate_eq_phase]
  exact backendPhase_usedContextId ..

theorem subMatch_self (needle : List Char) : subMatch needle needle = true := by
  cases needle with
  | nil => rfl
  | cons c rest =>
    simp only [subMatch, Bool.or_eq_true, List.isPrefixOf_iff_prefix]
    exact Or.inl (List.prefix_refl _)

theorem subMatch_of_suffix (needle hay : List Char) (h : needle <:+ hay) :
    subMatch needle hay = true := by
  obtain ⟨t, rfl⟩ := h
  induction t with
  | nil => exact subMatch_self needle
  | cons c t ih => simp [subMatch, ih]

theorem strContains_of_suffix (s t : String)
    (h : t.toList.isSuffixOf s.toList = true) : strContains s t = true :=
  subMatch_of_suffix t.toList s.toList (List.isSuffixOf_iff_suffix.mp h)

/-- Claim C4: the per-chunk transform of `TokenStreamer.on_finalized_text`
equals the reference transform: a chunk beginning with the BOS marker is
suppressed entirely; otherwise a trailing occurrence of the EOS marker
(exactly one) is stripped; a chunk containing neither marker is forwarded
unchanged. -/
theorem stream_filter_matches_reference (bos eos text : String) :
    on_finalized_text bos eos text = streamFilterSpec bos eos text := by
  unfold on_finalized_text streamFilterSpec pyStartswith removesuffix
  by_cases hB : bos.data <+: text.data
  · simp [hB]
  · by_cases hS : eos.data <:+ text.data
    · have hC : strContains text eos = true :=
        strContains_of_suffix text eos (List.isSuffixOf_iff_suffix.mpr hS)
      simp [hB, hS, hC]
    · cases hC : strContains text eos with
      | false => simp [hB, hS, hC]
      | true => simp [hB, hS, hC]

theorem backendPhase_no_unknown (ctxs2 : Ctxs) (cid : String) (attach : Bool)
    (device : String) (a1 a2 : List Message → Except Fault RawResult)
    (hist : List Message) (hL : (ctxLookup ctxs2 cid).isSome = true) :
    (backendPhase ctxs2 cid attach device a1 a2 hist).result ≠
      Except.error GenError.unknownContext := by
  obtain ⟨h0, hh⟩ := Option.isSome_iff_exists.mp hL
  have hApp : ∀ msg : Message, appendMsg ctxs2 cid msg = some (ctxSet ctxs2 cid (h0 ++ [msg])) := by
    intro msg
    simp [appendMsg, hh]
  cases h1 : a1 hist with
  | ok r =>
    cases hN : normalizeCompletion r with
    | none => simp [backendPhase, h1, finishTurn, hN]
    | some comp => simp [backendPhase, h1, finishTurn, hN, hApp]
  | error e =>
    cases he : e.isRuntimeError with
    | false => simp [backendPhase, h1, he]
    | true =>
      cases h2 : a2 hist with
      | ok r =>
        cases hN : normalizeCompletion r with
        | none => simp [backendPhase, h1, he, h2, finishTurn, hN]
        | some comp => simp [backendPhase, h1, he, h2, finishTurn, hN, hApp]
      | error e2 => simp [backendPhase, h1, he, h2]

/-- Claim C10: for every input to `generate` — any message, and any context id
argument (absent, empty, fresh, previously seen, or never seen) — the context
entry is initialized before the user-message append, so the lookup-and-append
on the context map never fails: the unknown-context error is unreachable
through `generate`. -/
theorem unknownContext_unreachable (st : LLMState) (device : String)
    (a1 a2 : List Message → Except Fault RawResult)
    (freshId message : String) (ctxArg : Option String) :
    (generate st device a1 a2 freshId message ctxArg).result ≠
      Except.error GenError.unknownContext := by
  rw [generate_eq_phase]
  apply backendPhase_no_unknown
  rw [ctxLookup_ctxSet_self]
  rfl

/-- On every path of the backend phase that ends in an error, the context
store is left exactly as the append-user phase left it. -/
theorem backendPhase_error_contexts (ctxs2 : Ctxs) (cid : String) (attach : Bool)
    (device : String) (a1 a2 : List Message → Except Fault RawResult)
    (hist : List Message) (e : GenError)
    (hE : (backendPhase ctxs2 cid attach device a1 a2 hist).result = Except.error e) :
    (backendPhase ctxs2 cid attach device a1 a2 hist).contexts = ctxs2 := by
  cases h1 : a1 hist with
  | ok r =>
    cases hN : normalizeCompletion r with
    | none => simp [backendPhase, h1, finishTurn, hN]
    | some comp =>
      cases hA : appendMsg ctxs2 cid ⟨comp.role, comp.content⟩ with
      | none => simp [backendPhase, h1, finishTurn, hN, hA]
      | some ctxs3 => simp [backendPhase, h1, finishTurn, hN, hA] at hE
  | error e1 =>
    cases he : e1.isRuntimeError with
    | false => simp [backendPhase, h1, he]
    | true =>
      cases h2 : a2 hist with
      | ok r =>
        cases hN : normalizeCompletion r with
        | none => simp [backendPhase, h1, he, h2, finishTurn, hN]
        | some comp =>
          cases hA : appendMsg ctxs2 cid ⟨comp.role, comp.content⟩ with
          | none => simp [backendPhase, h1, he, h2, finishTurn, hN, hA]
          | some ctxs3 => simp [backendPhase, h1, he, h2, finishTurn, hN, hA] at hE
      | error e2 => simp [backendPhase, h1, he, h2]

/-- Claim C7: when the call fails fatally (any error propagates out of
`generate`), the user message appended before the backend call remains the
last entry of the stored history for the context the call used; no rollback
is performed. -/
theorem no_rollback_on_failure (st : LLMState) (device : String)
    (a1 a2 : List Message → Except Fault RawResult)
    (freshId message : String) (ctxArg : Option String) (e : GenError)
    (hE : (generate st device a1 a2 freshId message ctxArg).result = Except.error e) :
    (ctxLookup (generate st device a1 a2 freshId message ctxArg).contexts
      (generate st device a1 a2 freshId message ctxArg).usedContextId).isSome = true ∧
    ((ctxLookup (generate st device a1 a2 freshId message ctxArg).contexts
        (generate st device a1 a2 freshId message ctxArg).usedContextId).getD
      []).getLast? = some ⟨Role.user, message⟩ := by
  rw [generate_eq_phase] at hE ⊢
  rw [backendPhase_usedContextId]
  rw [backendPhase_error_contexts _ _ _ _ _ _ _ e hE]
  rw [ctxLookup_ctxSet_self]
  refine ⟨rfl, ?_⟩
  simp

/-- Counterexample to claim C1 as stated: a backend fault that does not match
the kernel-incompatibility signature (here an unrelated `RuntimeError`) is
*not* propagated without retrying — `generate` retries once (two backend
calls) and, when the retry succeeds, returns the successful result to the
caller; the disable hooks are indeed never invoked. -/
theorem unrelated_runtime_fault_is_retried :
    (generate ⟨[], none⟩ "cuda"
        (fun _ => Except.error ⟨true, "unrelated runtime failure"⟩)
        (fun _ => Except.ok (RawResult.bare "recovered"))
        "id0" "hello" none).result =
      Except.ok ⟨Role.assistant, "recovered", some "id0"⟩ ∧
    (generate ⟨[], none⟩ "cuda"
        (fun _ => Except.error ⟨true, "unrelated runtime failure"⟩)
        (fun _ => Except.ok (RawResult.bare "recovered"))
        "id0" "hello" none).backendCalls = 2 ∧
    (generate ⟨[], none⟩ "cuda"
        (fun _ => Except.error ⟨true, "unrelated runtime failure"⟩)
        (fun _ => Except.ok (RawResult.bare "recovered"))
        "id0" "hello" none).memEffDisables = 0 ∧
    (generate ⟨[], none⟩ "cuda"
        (fun _ => Except.error ⟨true, "unrelated runtime failure"⟩)
        (fun _ => Except.ok (RawResult.bare "recovered"))
        "id0" "hello" none).flashDisables = 0 := by
  refine ⟨?_, ?_, ?_, ?_⟩ <;> rfl

theorem finishTurn_counters (ctxs2 : Ctxs) (cid : String) (attach : Bool)
    (memd flashd calls : Nat) (r : RawResult) :
    (finishTurn ctxs2 cid attach memd flashd calls r).memEffDisables = memd ∧
    (finishTurn ctxs2 cid attach memd flashd calls r).flashDisables = flashd ∧
    (finishTurn ctxs2 cid attach memd flashd calls r).backendCalls = calls := by
  cases hN : normalizeCompletion r with
  | none => simp [finishTurn, hN]
  | some comp =>
    cases hA : appendMsg ctxs2 cid ⟨comp.role, comp.content⟩ with
    | none => simp [finishTurn, hN, hA]
    | some ctxs3 => simp [finishTurn, hN, hA]

theorem finishTurn_result_not_backend (ctxs2 : Ctxs) (cid : String) (attach : Bool)
    (memd flashd calls : Nat) (r : RawResult) (f : Fault) :
    (finishTurn ctxs2 cid attach memd flashd calls r).result ≠
      Except.error (GenError.backend f) := by
  cases hN : normalizeCompletion r with
  | none => simp [finishTurn, hN]
  | some comp =>
    cases hA : appendMsg ctxs2 cid ⟨comp.role, comp.content⟩ with
    | none => simp [finishTurn, hN, hA]
    | some ctxs3 => simp [finishTurn, hN, hA]

/-- Claim C1 (amended): a fault that is not a `RuntimeError` propagates
unmodified without retrying and the disable hooks are never invoked; an
unrelated `RuntimeError` (one not matching the kernel-incompatibility
signature on a GPU backend) is retried exactly once without invoking the
hooks, and a second fault then propagates unmodified. -/
theorem fault_propagation_policy (st : LLMState) (device : String)
    (a1 a2 : List Message → Except Fault RawResult)
    (freshId message : String) (ctxArg : Option String) (e : Fault)
    (hA1 : ∀ h, a1 h = Except.error e) :
    (e.isRuntimeError = false →
      (generate st device a1 a2 freshId message ctxArg).result =
        Except.error (GenError.backend e) ∧
      (generate st device a1 a2 freshId message ctxArg).backendCalls = 1 ∧
      (generate st device a1 a2 freshId message ctxArg).memEffDisables = 0 ∧
      (generate st device a1 a2 freshId message ctxArg).flashDisables = 0) ∧
    (e.isRuntimeError = true →
      (strContains e.text "cutlassF" && (device == "cuda")) = false →
      (generate st device a1 a2 freshId message ctxArg).backendCalls = 2 ∧
      (generate st device a1 a2 freshId message ctxArg).memEffDisables = 0 ∧
      (generate st device a1 a2 freshId message ctxArg).flashDisables = 0 ∧
      ∀ e2 : Fault, (∀ h, a2 h = Except.error e2) →
        (generate st device a1 a2 freshId message ctxArg).result =
          Except.error (GenError.backend e2)) := by
  rw [generate_eq_phase]
  constructor
  · intro hR
    simp [backendPhase, hA1, hR]
  · intro hR hSig
    cases h2 : a2 (initialHist st (resolvedCid freshId ctxArg) (pyTruthyNone ctxArg) ++
        [⟨Role.user, message⟩]) with
    | ok r =>
      have hred : backendPhase
          (ctxSet st.contexts (resolvedCid freshId ctxArg)
            (initialHist st (resolvedCid freshId ctxArg) (pyTruthyNone ctxArg) ++
              [⟨Role.user, message⟩]))
          (resolvedCid freshId ctxArg) (pyTruthyNone ctxArg) device a1 a2
          (initialHist st (resolvedCid freshId ctxArg) (pyTruthyNone ctxArg) ++
            [⟨Role.user, message⟩]) =
          finishTurn
            (ctxSet st.contexts (resolvedCid freshId ctxArg)
              (initialHist st (resolvedCid freshId ctxArg) (pyTruthyNone ctxArg) ++
                [⟨Role.user, message⟩]))
            (resolvedCid freshId ctxArg) (pyTruthyNone ctxArg) 0 0 2 r := by
        simp [backendPhase, hA1, hR, hSig, h2]
      rw [hred]
      obtain ⟨hm, hf, hc⟩ := finishTurn_counters ..
      refine ⟨hc, hm, hf, ?_⟩
      intro e2 hA2
      rw [hA2] at h2
      exact absurd h2 (by simp)
    | error e2x =>
      have hred : backendPhase
          (ctxSet st.contexts (resolvedCid freshId ctxArg)
            (initialHist st (resolvedCid freshId ctxArg) (pyTruthyNone ctxArg) ++
              [⟨Role.user, message⟩]))
          (resolvedCid freshId ctxArg) (pyTruthyNone ctxArg) device a1 a2
          (initialHist st (resolvedCid freshId ctxArg) (pyTruthyNone ctxArg) ++
            [⟨Role.user, message⟩]) =
          ⟨Except.error (GenError.backend e2x),
            ctxSet st.contexts (resolvedCid freshId ctxArg)
              (initialHist st (resolvedCid freshId ctxArg) (pyTruthyNone ctxArg) ++
                [⟨Role.user, message⟩]),
            0, 0, 2, resolvedCid freshId ctxArg⟩ := by
        simp [backendPhase, hA1, hR, hSig, h2]
      rw [hred]
      refine ⟨rfl, rfl, rfl, ?_⟩
      intro e2 hA2
      rw [hA2] at h2
      cases h2
      rfl

/-- Claim C2: when the first backend invocation raises a fault matching the
memory-efficient-attention kernel-incompatibility signature (a `RuntimeError`
whose text contains `cutlassF`) while the device is the GPU accelerator
(`cuda`), and the second invocation succeeds, `generate` disables the
memory-efficient-attention kernel path and the flash-attention path exactly
once each, retries the identical call exactly once (two pipeline invocations
on the same history), and returns the successful result. -/
theorem retry_on_kernel_incompat (st : LLMState) (device : String)
    (a1 a2 : List Message → Except Fault RawResult)
    (freshId message : String) (ctxArg : Option String)
    (e : Fault) (r : RawResult) (comp : Message)
    (hRTE : e.isRuntimeError = true)
    (hSig : strContains e.text "cutlassF" = true)
    (hDev : device = "cuda")
    (hA1 : ∀ h, a1 h = Except.error e)
    (hA2 : ∀ h, a2 h = Except.ok r)
    (hN : normalizeCompletion r = some comp) :
    (generate st device a1 a2 freshId message ctxArg).memEffDisables = 1 ∧
    (generate st device a1 a2 freshId message ctxArg).flashDisables = 1 ∧
    (generate st device a1 a2 freshId message ctxArg).backendCalls = 2 ∧
    (generate st device a1 a2 freshId message ctxArg).result =
      Except.ok ⟨comp.role, comp.content,
        if pyTruthyNone ctxArg then some (resolvedCid freshId ctxArg) else none⟩ := by
  rw [generate_eq_phase]
  refine ⟨?_, ?_, ?_, ?_⟩ <;>
    simp [backendPhase, hA1, hRTE, hSig, hDev, hA2, finishTurn, hN, appendMsg,
      ctxLookup_ctxSet_self]

/-- Claim C3: starting from an `LLM` configured with system prompt `S` and an
empty context store, a first successful turn (no context id supplied, fresh id
`f`) with user message `U1` and assistant reply `A1`, followed by a second
successful turn on context `f` with user message `U2` and assistant reply
`A2`, leaves exactly `[S, U1, A1, U2, A2]` as the stored history of `f`, in
that order. -/
theorem history_ordering (S U1 U2 device f f2 : String)
    (a1 a1x a2 a2x : List Message → Except Fault RawResult)
    (r1 r2 : RawResult) (A1 A2 : Message)
    (hf : f.isEmpty = false)
    (hA1 : ∀ h, a1 h = Except.ok r1)
    (hN1 : normalizeCompletion r1 = some A1)
    (_hR1 : A1.role = Role.assistant)
    (hA2 : ∀ h, a2 h = Except.ok r2)
    (hN2 : normalizeCompletion r2 = some A2)
    (_hR2 : A2.role = Role.assistant) :
    ctxLookup (generate
        ⟨(generate ⟨[], some S⟩ device a1 a1x f U1 none).contexts, some S⟩
        device a2 a2x f2 U2 (some f)).contexts f =
      some [⟨Role.system, S⟩, ⟨Role.user, U1⟩, A1, ⟨Role.user, U2⟩, A2] := by
  have hEta1 : (⟨A1.role, A1.content⟩ : Message) = A1 := rfl
  have hEta2 : (⟨A2.role, A2.content⟩ : Message) = A2 := rfl
  have hc1 : (generate ⟨[], some S⟩ device a1 a1x f U1 none).contexts =
      [(f, [⟨Role.system, S⟩, ⟨Role.user, U1⟩, A1])] := by
    rw [generate_eq_phase]
    simp [backendPhase, hA1, finishTurn, hN1, appendMsg, ctxLookup_ctxSet_self,
      ctxSet_ctxSet, initialHist, resolvedCid, pyTruthyNone, sysInit, ctxSet,
      ctxLookup, hEta1]
  rw [hc1, generate_eq_phase]
  simp [backendPhase, hA2, finishTurn, hN2, appendMsg, ctxLookup_ctxSet_self,
    ctxSet_ctxSet, initialHist, resolvedCid, pyTruthyNone, sysInit, ctxSet,
    ctxLookup, hEta2, hf]

theorem finishTurn_attach_variance (ctxs2 : Ctxs) (cid : String)
    (memd flashd calls : Nat) (r : RawResult) :
    (finishTurn ctxs2 cid false memd flashd calls r).contexts =
      (finishTurn ctxs2 cid true memd flashd calls r).contexts ∧
    (finishTurn ctxs2 cid false memd flashd calls r).memEffDisables =
      (finishTurn ctxs2 cid true memd flashd calls r).memEffDisables ∧
    (finishTurn ctxs2 cid false memd flashd calls r).flashDisables =
      (finishTurn ctxs2 cid true memd flashd calls r).flashDisables ∧
    (finishTurn ctxs2 cid false memd flashd calls r).backendCalls =
      (finishTurn ctxs2 cid true memd flashd calls r).backendCalls ∧
    (finishTurn ctxs2 cid false memd flashd calls r).result =
      Except.map eraseCtxField (finishTurn ctxs2 cid true memd flashd calls r).result := by
  cases hN : normalizeCompletion r with
  | none => simp [finishTurn, hN, Except.map]
  | some comp =>
    cases hA : appendMsg ctxs2 cid ⟨comp.role, comp.content⟩ with
    | none => simp [finishTurn, hN, hA, Except.map]
    | some ctxs3 => simp [finishTurn, hN, hA, Except.map, eraseCtxField]

theorem backendPhase_attach_variance (ctxs2 : Ctxs) (cid : String) (device : String)
    (a1 a2 : List Message → Except Fault RawResult) (hist : List Message) :
    (backendPhase ctxs2 cid false device a1 a2 hist).contexts =
      (backendPhase ctxs2 cid true device a1 a2 hist).contexts ∧
    (backendPhase ctxs2 cid false device a1 a2 hist).memEffDisables =
      (backendPhase ctxs2 cid true device a1 a2 hist).memEffDisables ∧
    (backendPhase ctxs2 cid false device a1 a2 hist).flashDisables =
      (backendPhase ctxs2 cid true device a1 a2 hist).flashDisables ∧
    (backendPhase ctxs2 cid false device a1 a2 hist).backendCalls =
      (backendPhase ctxs2 cid true device a1 a2 hist).backendCalls ∧
    (backendPhase ctxs2 cid false device a1 a2 hist).result =
      Except.map eraseCtxField (backendPhase ctxs2 cid true device a1 a2 hist).result := by
  cases h1 : a1 hist with
  | ok r => simpa [backendPhase, h1] using finishTurn_attach_variance ctxs2 cid 0 0 1 r
  | error e =>
    cases he : e.isRuntimeError with
    | false => simp [backendPhase, h1, he, Except.map]
    | true =>
      cases h2 : a2 hist with
      | ok r =>
        simpa [backendPhase, h1, he, h2] using
          finishTurn_attach_variance ctxs2 cid
            (if strContains e.text "cutlassF" && (device == "cuda") then 1 else 0)
            (if strContains e.text "cutlassF" && (device == "cuda") then 1 else 0) 2 r
      | error e2 => simp [backendPhase, h1, he, h2, Except.map]

theorem finishTurn_ok_ctx_field (ctxs2 : Ctxs) (cid : String) (attach : Bool)
    (memd flashd calls : Nat) (r : RawResult) (am : AssistantMessage)
    (h : (finishTurn ctxs2 cid attach memd flashd calls r).result = Except.ok am) :
    am.context_id = if attach then some cid else none := by
  cases hN : normalizeCompletion r with
  | none => simp [finishTurn, hN] at h
  | some comp =>
    cases hA : appendMsg ctxs2 cid ⟨comp.role, comp.content⟩ with
    | none => simp [finishTurn, hN, hA] at h
    | some ctxs3 =>
      simp only [finishTurn, hN, hA] at h
      cases h
      rfl

theorem backendPhase_ok_ctx_field (ctxs2 : Ctxs) (cid : String) (attach : Bool)
    (device : String) (a1 a2 : List Message → Except Fault RawResult)
    (hist : List Message) (am : AssistantMessage)
    (h : (backendPhase ctxs2 cid attach device a1 a2 hist).result = Except.ok am) :
    am.context_id = if attach then some cid else none := by
  cases h1 : a1 hist with
  | ok r =>
    rw [backendPhase, h1] at h
    exact finishTurn_ok_ctx_field _ _ _ _ _ _ _ _ h
  | error e =>
    cases he : e.isRuntimeError with
    | false => simp [backendPhase, h1, he] at h
    | true =>
      cases h2 : a2 hist with
      | ok r =>
        simp only [backendPhase, h1, he, if_true, h2] at h
        exact finishTurn_ok_ctx_field _ _ _ _ _ _ _ _ h
      | error e2 => simp [backendPhase, h1, he, h2] at h

/-- Counterexample to claim C5 as stated: the never-before-seen caller-supplied
context id `""` is treated like an absent id — the turn is stored under the
freshly generated id (not under `""`), and the returned message carries a
`context_id` field even though the caller supplied an id. -/
theorem empty_context_id_gets_fresh :
    (generate ⟨[], none⟩ "cpu" (fun _ => Except.ok (RawResult.bare "r"))
        (fun _ => Except.ok (RawResult.bare "r")) "fresh0" "m" (some "")).result =
      Except.ok ⟨Role.assistant, "r", some "fresh0"⟩ ∧
    ctxLookup (generate ⟨[], none⟩ "cpu" (fun _ => Except.ok (RawResult.bare "r"))
        (fun _ => Except.ok (RawResult.bare "r")) "fresh0" "m" (some "")).contexts "" =
      none ∧
    (generate ⟨[], none⟩ "cpu" (fun _ => Except.ok (RawResult.bare "r"))
        (fun _ => Except.ok (RawResult.bare "r")) "fresh0" "m" (some "")).usedContextId =
      "fresh0" := by
  refine ⟨rfl, rfl, rfl⟩

/-- Claim C5 (amended): for every *nonempty* never-before-seen caller-supplied
context id `x`, `generate` behaves identically to a call with no context id
whose generated fresh id is `x` — same store, same initialization with the
configured system prompt, history stored under `x`, same effect counters, and
the same result — except that the returned message carries no `context_id`
field; in general the returned message carries a `context_id` field exactly
when the caller supplied no id or the empty id. -/
theorem unknown_id_behaves_like_fresh (st : LLMState) (device : String)
    (a1 a2 : List Message → Except Fault RawResult) (fid message x : String)
    (hx : x.isEmpty = false)
    (hUnseen : ctxLookup st.contexts x = none) :
    behavesLikeFreshExceptId
      (generate st device a1 a2 fid message (some x))
      (generate st device a1 a2 x message none) x ∧
    ∀ (ctxArg : Option String) (am : AssistantMessage),
      (generate st device a1 a2 fid message ctxArg).result = Except.ok am →
      am.context_id.isSome = pyTruthyNone ctxArg := by
  constructor
  · have hcid : resolvedCid fid (some x) = x := by simp [resolvedCid, hx]
    have hatt : pyTruthyNone (some x) = false := by simp [pyTruthyNone, hx]
    have hcidN : resolvedCid x none = x := rfl
    have hattN : pyTruthyNone none = true := rfl
    rw [generate_eq_phase, generate_eq_phase, hcid, hatt, hcidN, hattN]
    have hIH : initialHist st x false = initialHist st x true := by
      simp [initialHist, hUnseen]
    rw [hIH]
    obtain ⟨hc, hm, hf, hb, hr⟩ := backendPhase_attach_variance
      (ctxSet st.contexts x (initialHist st x true ++ [⟨Role.user, message⟩]))
      x device a1 a2 (initialHist st x true ++ [⟨Role.user, message⟩])
    exact ⟨hc, backendPhase_usedContextId .., backendPhase_usedContextId .., hm, hf, hb, hr⟩
  · intro ctxArg am h
    rw [generate_eq_phase] at h
    have := backendPhase_ok_ctx_field _ _ _ _ _ _ _ _ h
    rw [this]
    cases pyTruthyNone ctxArg <;> rfl

theorem sysInv_nil : sysInv [] := by
  constructor
  · simp
  · intro i hi
    simp at hi

theorem sysInv_singleton (m : Message) : sysInv [m] := by
  constructor
  · rw [List.countP_cons, List.countP_nil]
    split <;> simp
  · intro i hi _
    simp only [List.length_cons, List.length_nil] at hi
    omega

theorem sysInv_sysInit (sp : Option String) : sysInv (sysInit sp) := by
  cases sp with
  | none => exact sysInv_nil
  | some s => exact sysInv_singleton _

theorem sysInv_append_nonsystem (h : List Message) (m : Message)
    (hInv : sysInv h) (hm : m.role ≠ Role.system) : sysInv (h ++ [m]) := by
  obtain ⟨hc, hidx⟩ := hInv
  constructor
  · rw [List.countP_append, List.countP_cons, List.countP_nil]
    have h1 : ((m.role == Role.system) = true) = False := by
      simp [hm]
    rw [if_neg (by simp [hm])]
    omega
  · intro i hi hrole
    rcases Nat.lt_or_ge i h.length with hlt | hge
    · have hget : (h ++ [m])[i] = h[i] := List.getElem_append_left hlt
      rw [hget] at hrole
      exact hidx i hlt hrole
    · have hieq : i = h.length := by
        rw [List.length_append, List.length_cons, List.length_nil] at hi
        omega
      have hget : (h ++ [m])[i] = m := List.getElem_concat_length h m i hieq hi
      rw [hget] at hrole
      exact absurd hrole hm

theorem sysInv_initialHist (st : LLMState) (cid : String) (attach : Bool)
    (hSt : ∀ cid h, ctxLookup st.contexts cid = some h → sysInv h) :
    sysInv (initialHist st cid attach) := by
  unfold initialHist
  by_cases hc : (attach || (ctxLookup st.contexts cid).isNone) = true
  · rw [if_pos hc]
    exact sysInv_sysInit _
  · rw [if_neg hc]
    cases hL : ctxLookup st.contexts cid with
    | none => simp [hL] at hc
    | some h0 => simpa [hL] using hSt cid h0 hL

theorem finishTurn_contexts_cases (ctxs2 : Ctxs) (cid : String) (attach : Bool)
    (memd flashd calls : Nat) (r : RawResult) :
    (finishTurn ctxs2 cid attach memd flashd calls r).contexts = ctxs2 ∨
    ∃ comp, normalizeCompletion r = some comp ∧
      (finishTurn ctxs2 cid attach memd flashd calls r).contexts =
        ctxSet ctxs2 cid ((ctxLookup ctxs2 cid).getD [] ++ [⟨comp.role, comp.content⟩]) := by
  cases hN : normalizeCompletion r with
  | none => exact Or.inl (by simp [finishTurn, hN])
  | some comp =>
    cases hL : ctxLookup ctxs2 cid with
    | none => exact Or.inl (by simp [finishTurn, hN, appendMsg, hL])
    | some h0 =>
      refine Or.inr ⟨comp, rfl, ?_⟩
      simp [finishTurn, hN, appendMsg, hL]

theorem backendPhase_contexts_cases (ctxs2 : Ctxs) (cid : String) (attach : Bool)
    (device : String) (a1 a2 : List Message → Except Fault RawResult)
    (hist : List Message) :
    (backendPhase ctxs2 cid attach device a1 a2 hist).contexts = ctxs2 ∨
    ∃ r comp, (a1 hist = Except.ok r ∨ a2 hist = Except.ok r) ∧
      normalizeCompletion r = some comp ∧
      (backendPhase ctxs2 cid attach device a1 a2 hist).contexts =
        ctxSet ctxs2 cid ((ctxLookup ctxs2 cid).getD [] ++ [⟨comp.role, comp.content⟩]) := by
  cases h1 : a1 hist with
  | ok r =>
    have hred : backendPhase ctxs2 cid attach device a1 a2 hist =
        finishTurn ctxs2 cid attach 0 0 1 r := by
      simp [backendPhase, h1]
    rw [hred]
    rcases finishTurn_contexts_cases ctxs2 cid attach 0 0 1 r with hC | ⟨comp, hN, hC⟩
    · exact Or.inl hC
    · exact Or.inr ⟨r, comp, Or.inl rfl, hN, hC⟩
  | error e =>
    cases he : e.isRuntimeError with
    | false => exact Or.inl (by simp [backendPhase, h1, he])
    | true =>
      cases h2 : a2 hist with
      | ok r =>
        have hred : backendPhase ctxs2 cid attach device a1 a2 hist =
            finishTurn ctxs2 cid attach
              (if strContains e.text "cutlassF" && (device == "cuda") then 1 else 0)
              (if strContains e.text "cutlassF" && (device == "cuda") then 1 else 0) 2 r := by
          simp [backendPhase, h1, he, h2]
        rw [hred]
        rcases finishTurn_contexts_cases ctxs2 cid attach _ _ 2 r with hC | ⟨comp, hN, hC⟩
        · exact Or.inl hC
        · exact Or.inr ⟨r, comp, Or.inr rfl, hN, hC⟩
      | error e2 => exact Or.inl (by simp [backendPhase, h1, he, h2])

/-- Claim C6: every history reachable in the context store holds at most one
system message, any system message sits at index 0, and `generate` preserves
this invariant — for any store satisfying it and any backend obeying the
documented result contract (a conversation result ends with the assistant
reply), every history stored after the call satisfies it again. -/
theorem generate_preserves_sysInv (st : LLMState) (device : String)
    (a1 a2 : List Message → Except Fault RawResult)
    (freshId message : String) (ctxArg : Option String)
    (hSt : ∀ cid h, ctxLookup st.contexts cid = some h → sysInv h)
    (hB1 : ∀ h r, a1 h = Except.ok r → rawEndsAssistant r)
    (hB2 : ∀ h r, a2 h = Except.ok r → rawEndsAssistant r) :
    ∀ cid h,
      ctxLookup (generate st device a1 a2 freshId message ctxArg).contexts cid = some h →
      sysInv h := by
  intro cid h hLook
  rw [generate_eq_phase] at hLook
  set rcid := resolvedCid freshId ctxArg with hrc
  set att := pyTruthyNone ctxArg with hat
  set hist := initialHist st rcid att ++ [(⟨Role.user, message⟩ : Message)] with hh
  set ctxs2 := ctxSet st.contexts rcid hist with hc2
  have hHist : sysInv hist := by
    rw [hh]
    exact sysInv_append_nonsystem _ _ (sysInv_initialHist st rcid att hSt) (by simp)
  have hSelf : ctxLookup ctxs2 rcid = some hist := by
    rw [hc2]
    exact ctxLookup_ctxSet_self ..
  rcases backendPhase_contexts_cases ctxs2 rcid att device a1 a2 hist with
    hC | ⟨r, comp, hOk, hN, hC⟩
  · rw [hC] at hLook
    by_cases hq : cid = rcid
    · subst hq
      rw [hc2, ctxLookup_ctxSet_self, Option.some_inj] at hLook
      subst hLook
      exact hHist
    · rw [hc2, ctxLookup_ctxSet_ne _ _ _ _ hq] at hLook
      exact hSt cid h hLook
  · have hRole : comp.role = Role.assistant := by
      have hre : rawEndsAssistant r := hOk.elim (fun hx => hB1 _ _ hx) (fun hx => hB2 _ _ hx)
      cases r with
      | bare s =>
        simp only [normalizeCompletion] at hN
        injection hN with h2
        rw [← h2]
      | conv msgs => exact hre comp hN
    rw [hC] at hLook
    rw [hSelf] at hLook
    simp only [Option.getD_some] at hLook
    by_cases hq : cid = rcid
    · subst hq
      rw [ctxLookup_ctxSet_self, Option.some_inj] at hLook
      subst hLook
      refine sysInv_append_nonsystem _ _ hHist ?_
      rw [hRole]
      simp
    · rw [ctxLookup_ctxSet_ne _ _ _ _ hq, hc2, ctxLookup_ctxSet_ne _ _ _ _ hq] at hLook
      exact hSt cid h hLook

theorem finishTurn_ok_last (ctxs2 : Ctxs) (cid : String) (attach : Bool)
    (memd flashd calls : Nat) (r : RawResult) (am : AssistantMessage)
    (h : (finishTurn ctxs2 cid attach memd flashd calls r).result = Except.ok am) :
    (finishTurn ctxs2 cid attach memd flashd calls r).contexts =
      ctxSet ctxs2 cid ((ctxLookup ctxs2 cid).getD [] ++ [⟨am.role, am.content⟩]) := by
  cases hN : normalizeCompletion r with
  | none => simp [finishTurn, hN] at h
  | some comp =>
    cases hL : ctxLookup ctxs2 cid with
    | none => simp [finishTurn, hN, appendMsg, hL] at h
    | some h0 =>
      have hA : appendMsg ctxs2 cid ⟨comp.role, comp.content⟩ =
          some (ctxSet ctxs2 cid (h0 ++ [⟨comp.role, comp.content⟩])) := by
        simp [appendMsg, hL]
      simp only [finishTurn, hN, hA] at h ⊢
      injection h with h2
      rw [← h2]
      simp [hL]

theorem backendPhase_ok_last (ctxs2 : Ctxs) (cid : String) (attach : Bool)
    (device : String) (a1 a2 : List Message → Except Fault RawResult)
    (hist : List Message) (am : AssistantMessage)
    (h : (backendPhase ctxs2 cid attach device a1 a2 hist).result = Except.ok am) :
    (backendPhase ctxs2 cid attach device a1 a2 hist).contexts =
      ctxSet ctxs2 cid ((ctxLookup ctxs2 cid).getD [] ++ [⟨am.role, am.content⟩]) := by
  cases h1 : a1 hist with
  | ok r =>
    rw [backendPhase, h1] at h ⊢
    exact finishTurn_ok_last _ _ _ _ _ _ _ _ h
  | error e =>
    cases he : e.isRuntimeError with
    | false => simp [backendPhase, h1, he] at h
    | true =>
      cases h2 : a2 hist with
      | ok r =>
        simp only [backendPhase, h1, he, if_true, h2] at h ⊢
        exact finishTurn_ok_last _ _ _ _ _ _ _ _ h
      | error e2 => simp [backendPhase, h1, he, h2] at h

/-- Claim C8: message records already stored in a history are never mutated by
`generate` — every pre-existing history is a prefix of the corresponding
post-call history (and histories under other ids are untouched) — and the
assistant record stored in the history carries only the role and content of
the returned message: attaching the `context_id` field to the returned
message does not modify the stored record. -/
theorem history_records_immutable (st : LLMState) (device : String)
    (a1 a2 : List Message → Except Fault RawResult)
    (freshId message : String) (ctxArg : Option String)
    (hFresh : ctxLookup st.contexts freshId = none) :
    (∀ cid h, ctxLookup st.contexts cid = some h →
      (ctxLookup (generate st device a1 a2 freshId message ctxArg).contexts cid).isSome =
        true ∧
      h <+: (ctxLookup (generate st device a1 a2 freshId message ctxArg).contexts
        cid).getD []) ∧
    (∀ am : AssistantMessage,
      (generate st device a1 a2 freshId message ctxArg).result = Except.ok am →
      ((ctxLookup (generate st device a1 a2 freshId message ctxArg).contexts
          (generate st device a1 a2 freshId message ctxArg).usedContextId).getD
        []).getLast? = some ⟨am.role, am.content⟩) := by
  have hrf : pyTruthyNone ctxArg = true → resolvedCid freshId ctxArg = freshId := by
    cases ctxArg with
    | none => intro _; rfl
    | some s =>
      intro hs
      simp only [pyTruthyNone] at hs
      simp [resolvedCid, hs]
  constructor
  · intro cid h hLook
    rw [generate_eq_phase]
    set rcid := resolvedCid freshId ctxArg with hrc
    set att := pyTruthyNone ctxArg with hat
    set hist := initialHist st rcid att ++ [(⟨Role.user, message⟩ : Message)] with hh
    set ctxs2 := ctxSet st.contexts rcid hist with hc2
    have hSelf : ctxLookup ctxs2 rcid = some hist := by
      rw [hc2]
      exact ctxLookup_ctxSet_self ..
    by_cases hq : cid = rcid
    · subst hq
      have hattF : att = false := by
        cases hcase : att with
        | false => rfl
        | true =>
          rw [hrf hcase] at hLook
          rw [hLook] at hFresh
          cases hFresh
      have hIH : initialHist st rcid att = h := by
        rw [hattF, initialHist]
        simp [hLook]
      rcases backendPhase_contexts_cases ctxs2 rcid att device a1 a2 hist with
        hC | ⟨r, comp, hOk, hN, hC⟩
      · rw [hC, hSelf]
        refine ⟨rfl, ?_⟩
        simp only [Option.getD_some]
        rw [hh, hIH]
        exact List.prefix_append ..
      · rw [hC, hSelf]
        simp only [Option.getD_some]
        rw [ctxLookup_ctxSet_self]
        refine ⟨rfl, ?_⟩
        simp only [Option.getD_some]
        rw [hh, hIH]
        refine ⟨[(⟨Role.user, message⟩ : Message), ⟨comp.role, comp.content⟩], ?_⟩
        simp
    · rcases backendPhase_contexts_cases ctxs2 rcid att device a1 a2 hist with
        hC | ⟨r, comp, hOk, hN, hC⟩
      · rw [hC, hc2, ctxLookup_ctxSet_ne _ _ _ _ hq, hLook]
        exact ⟨rfl, List.prefix_refl h⟩
      · rw [hC, ctxLookup_ctxSet_ne _ _ _ _ hq, hc2, ctxLookup_ctxSet_ne _ _ _ _ hq, hLook]
        exact ⟨rfl, List.prefix_refl h⟩
  · intro am hok
    rw [generate_eq_phase] at hok ⊢
    rw [backendPhase_usedContextId]
    set rcid := resolvedCid freshId ctxArg with hrc
    set att := pyTruthyNone ctxArg with hat
    set hist := initialHist st rcid att ++ [(⟨Role.user, message⟩ : Message)] with hh
    set ctxs2 := ctxSet st.contexts rcid hist with hc2
    have hSelf : ctxLookup ctxs2 rcid = some hist := by
      rw [hc2]
      exact ctxLookup_ctxSet_self ..
    rw [backendPhase_ok_last _ _ _ _ _ _ _ _ hok, hSelf]
    simp only [Option.getD_some]
    rw [ctxLookup_ctxSet_self]
    simp only [Option.getD_some]
    exact List.getLast?_concat _

theorem freshIdGen_injective (m n : Nat) (h : freshIdGen m = freshIdGen n) : m = n := by
  unfold freshIdGen at h
  injection h with h2
  have h3 := congrArg List.length h2
  simpa using h3

theorem autoRun_usedId_ge (p : ProcState) (cs : List CallSpec) (g : GenResult)
    (hg : g ∈ autoRun p cs) :
    ∃ k, p.counter ≤ k ∧ g.usedContextId = freshIdGen k := by
  induction cs generalizing p with
  | nil => cases hg
  | cons c rest ih =>
    rcases List.mem_cons.mp hg with hg | hg
    · refine ⟨p.counter, Nat.le_refl _, ?_⟩
      rw [hg]
      show (generate p.llm c.device c.a1 c.a2 (freshIdGen p.counter) c.message
        none).usedContextId = freshIdGen p.counter
      rw [generate_usedContextId]
      rfl
    · obtain ⟨k, hk, hid⟩ := ih _ hg
      have hcnt : (autoCall p c).1.counter = p.counter + 1 := rfl
      rw [hcnt] at hk
      exact ⟨k, by omega, hid⟩

/-- Claim C9: repeated `generate` calls with no `context_id` supplied, driven
by the per-process fresh-id source, each use a distinct generated context id —
no two such calls in one process run yield the same id. -/
theorem auto_ids_distinct (p : ProcState) (cs : List CallSpec) :
    ((autoRun p cs).map (fun g => g.usedContextId)).Nodup := by
  induction cs generalizing p with
  | nil => simp [autoRun]
  | cons c rest ih =>
    simp only [autoRun, List.map_cons]
    refine List.nodup_cons.mpr ⟨?_, ih _⟩
    intro hmem
    rcases List.mem_map.mp hmem with ⟨g, hg, heq⟩
    obtain ⟨k, hk, hid⟩ := autoRun_usedId_ge _ _ _ hg
    have hcnt : (autoCall p c).1.counter = p.counter + 1 := rfl
    rw [hcnt] at hk
    have hhead : (autoCall p c).2.usedContextId = freshIdGen p.counter := by
      show (generate p.llm c.device c.a1 c.a2 (freshIdGen p.counter) c.message
        none).usedContextId = freshIdGen p.counter
      rw [generate_usedContextId]
      rfl
    rw [hid, hhead] at heq
    have hkp := freshIdGen_injective _ _ heq
    omega

theorem fault_propagation_policy_witness :
    (generate ⟨[], none⟩ "cpu" (fun _ => Except.error ⟨false, "ValueError: bad input"⟩)
        (fun _ => Except.ok (RawResult.bare "x")) "w1" "m" none).result =
      Except.error (GenError.backend ⟨false, "ValueError: bad input"⟩) ∧
    (generate ⟨[], none⟩ "cpu" (fun _ => Except.error ⟨false, "ValueError: bad input"⟩)
        (fun _ => Except.ok (RawResult.bare "x")) "w1" "m" none).backendCalls = 1 ∧
    (generate ⟨[], none⟩ "cpu" (fun _ => Except.error ⟨false, "ValueError: bad input"⟩)
        (fun _ => Except.ok (RawResult.bare "x")) "w1" "m" none).memEffDisables = 0 ∧
    (generate ⟨[], none⟩ "cpu" (fun _ => Except.error ⟨false, "ValueError: bad input"⟩)
        (fun _ => Except.ok (RawResult.bare "x")) "w1" "m" none).flashDisables = 0 :=
  (fault_propagation_policy ⟨[], none⟩ "cpu"
    (fun _ => Except.error ⟨false, "ValueError: bad input"⟩)
    (fun _ => Except.ok (RawResult.bare "x")) "w1" "m" none
    ⟨false, "ValueError: bad input"⟩ (fun _ => rfl)).1 rfl

theorem retry_on_kernel_incompat_witness :
    (generate ⟨[], none⟩ "cuda"
        (fun _ => Except.error ⟨true, "no kernel image: cutlassF not supported"⟩)
        (fun _ => Except.ok (RawResult.bare "y")) "w2" "m" none).memEffDisables = 1 ∧
    (generate ⟨[], none⟩ "cuda"
        (fun _ => Except.error ⟨true, "no kernel image: cutlassF not supported"⟩)
        (fun _ => Except.ok (RawResult.bare "y")) "w2" "m" none).flashDisables = 1 ∧
    (generate ⟨[], none⟩ "cuda"
        (fun _ => Except.error ⟨true, "no kernel image: cutlassF not supported"⟩)
        (fun _ => Except.ok (RawResult.bare "y")) "w2" "m" none).backendCalls = 2 ∧
    (generate ⟨[], none⟩ "cuda"
        (fun _ => Except.error ⟨true, "no kernel image: cutlassF not supported"⟩)
        (fun _ => Except.ok (RawResult.bare "y")) "w2" "m" none).result =
      Except.ok ⟨Role.assistant, "y", some "w2"⟩ :=
  retry_on_kernel_incompat ⟨[], none⟩ "cuda"
    (fun _ => Except.error ⟨true, "no kernel image: cutlassF not supported"⟩)
    (fun _ => Except.ok (RawResult.bare "y")) "w2" "m" none
    ⟨true, "no kernel image: cutlassF not supported"⟩ (RawResult.bare "y")
    ⟨Role.assistant, "y"⟩ rfl (by decide) rfl (fun _ => rfl) (fun _ => rfl) rfl

theorem history_ordering_witness :
    ctxLookup (generate
        ⟨(generate ⟨[], some "sys"⟩ "cpu" (fun _ => Except.ok (RawResult.bare "a1"))
            (fun _ => Except.ok (RawResult.bare "a1")) "f" "u1" none).contexts, some "sys"⟩
        "cpu" (fun _ => Except.ok (RawResult.bare "a2"))
        (fun _ => Except.ok (RawResult.bare "a2")) "g" "u2" (some "f")).contexts "f" =
      some [⟨Role.system, "sys"⟩, ⟨Role.user, "u1"⟩, ⟨Role.assistant, "a1"⟩,
        ⟨Role.user, "u2"⟩, ⟨Role.assistant, "a2"⟩] :=
  history_ordering "sys" "u1" "u2" "cpu" "f" "g"
    (fun _ => Except.ok (RawResult.bare "a1")) (fun _ => Except.ok (RawResult.bare "a1"))
    (fun _ => Except.ok (RawResult.bare "a2")) (fun _ => Except.ok (RawResult.bare "a2"))
    (RawResult.bare "a1") (RawResult.bare "a2")
    ⟨Role.assistant, "a1"⟩ ⟨Role.assistant, "a2"⟩
    rfl (fun _ => rfl) rfl rfl (fun _ => rfl) rfl rfl

theorem unknown_id_behaves_like_fresh_witness :
    behavesLikeFreshExceptId
      (generate ⟨[], none⟩ "cpu" (fun _ => Except.ok (RawResult.bare "r"))
        (fun _ => Except.ok (RawResult.bare "r")) "f0" "m" (some "x9"))
      (generate ⟨[], none⟩ "cpu" (fun _ => Except.ok (RawResult.bare "r"))
        (fun _ => Except.ok (RawResult.bare "r")) "x9" "m" none) "x9" ∧
    (⟨Role.assistant, "r", some "f0"⟩ : AssistantMessage).context_id.isSome =
      pyTruthyNone (none : Option String) :=
  ⟨(unknown_id_behaves_like_fresh ⟨[], none⟩ "cpu"
      (fun _ => Except.ok (RawResult.bare "r")) (fun _ => Except.ok (RawResult.bare "r"))
      "f0" "m" "x9" rfl rfl).1,
   (unknown_id_behaves_like_fresh ⟨[], none⟩ "cpu"
      (fun _ => Except.ok (RawResult.bare "r")) (fun _ => Except.ok (RawResult.bare "r"))
      "f0" "m" "x9" rfl rfl).2 none ⟨Role.assistant, "r", some "f0"⟩ rfl⟩

theorem generate_preserves_sysInv_witness :
    sysInv [⟨Role.system, "S"⟩, ⟨Role.user, "m"⟩, ⟨Role.assistant, "a"⟩] :=
  generate_preserves_sysInv ⟨[], some "S"⟩ "cpu"
    (fun _ => Except.ok (RawResult.bare "a")) (fun _ => Except.ok (RawResult.bare "a"))
    "c0" "m" none
    (fun _ _ hh => Option.noConfusion hh)
    (fun _ r hr => by injection hr with h2; rw [← h2]; trivial)
    (fun _ r hr => by injection hr with h2; rw [← h2]; trivial)
    "c0" _ rfl

theorem no_rollback_on_failure_witness :
    (ctxLookup (generate ⟨[], none⟩ "cpu" (fun _ => Except.error ⟨false, "boom"⟩)
        (fun _ => Except.error ⟨false, "boom"⟩) "c7" "m" none).contexts
      (generate ⟨[], none⟩ "cpu" (fun _ => Except.error ⟨false, "boom"⟩)
        (fun _ => Except.error ⟨false, "boom"⟩) "c7" "m" none).usedContextId).isSome =
      true ∧
    ((ctxLookup (generate ⟨[], none⟩ "cpu" (fun _ => Except.error ⟨false, "boom"⟩)
        (fun _ => Except.error ⟨false, "boom"⟩) "c7" "m" none).contexts
      (generate ⟨[], none⟩ "cpu" (fun _ => Except.error ⟨false, "boom"⟩)
        (fun _ => Except.error ⟨false, "boom"⟩) "c7" "m" none).usedContextId).getD
      []).getLast? = some ⟨Role.user, "m"⟩ :=
  no_rollback_on_failure ⟨[], none⟩ "cpu" (fun _ => Except.error ⟨false, "boom"⟩)
    (fun _ => Except.error ⟨false, "boom"⟩) "c7" "m" none
    (GenError.backend ⟨false, "boom"⟩) rfl

theorem history_records_immutable_witness :
    ((ctxLookup (generate ⟨[("c8", [⟨Role.system, "S"⟩])], none⟩ "cpu"
        (fun _ => Except.ok (RawResult.bare "r")) (fun _ => Except.ok (RawResult.bare "r"))
        "f8" "m" (some "c8")).contexts "c8").isSome = true ∧
      [(⟨Role.system, "S"⟩ : Message)] <+:
        (ctxLookup (generate ⟨[("c8", [⟨Role.system, "S"⟩])], none⟩ "cpu"
          (fun _ => Except.ok (RawResult.bare "r")) (fun _ => Except.ok (RawResult.bare "r"))
          "f8" "m" (some "c8")).contexts "c8").getD []) ∧
    ((ctxLookup (generate ⟨[("c8", [⟨Role.system, "S"⟩])], none⟩ "cpu"
        (fun _ => Except.ok (RawResult.bare "r")) (fun _ => Except.ok (RawResult.bare "r"))
        "f8" "m" (some "c8")).contexts
      (generate ⟨[("c8", [⟨Role.system, "S"⟩])], none⟩ "cpu"
        (fun _ => Except.ok (RawResult.bare "r")) (fun _ => Except.ok (RawResult.bare "r"))
        "f8" "m" (some "c8")).usedContextId).getD []).getLast? =
      some ⟨Role.assistant, "r"⟩ :=
  ⟨(history_records_immutable ⟨[("c8", [⟨Role.system, "S"⟩])], none⟩ "cpu"
      (fun _ => Except.ok (RawResult.bare "r")) (fun _ => Except.ok (RawResult.bare "r"))
      "f8" "m" (some "c8") rfl).1 "c8" [⟨Role.system, "S"⟩] rfl,
   (history_records_immutable ⟨[("c8", [⟨Role.system, "S"⟩])], none⟩ "cpu"
      (fun _ => Except.ok (RawResult.bare "r")) (fun _ => Except.ok (RawResult.bare "r"))
      "f8" "m" (some "c8") rfl).2 ⟨Role.assistant, "r", none⟩ rfl⟩
